import Mathlib

/-!
Verification of the Smart-Tourist-Safety backend services.

The TypeScript services are shallowly embedded: pure computations become Lean
functions over `Rat`, `String` and `List Char`; every external effect (the
Supabase client, `Math.random`, `Date.now`, `crypto`, the OpenAI client, the
ethers provider) is an explicit oracle parameter, and each request handler
returns the list of side-effect events it performed together with its
Express-level outcome (`Except` of an API error or a response value).
-/

set_option maxHeartbeats 1000000
set_option linter.unusedVariables false

/-- Decidable equality of `Except` outcomes, for closed evaluation. -/
instance exceptDecEq {ε α : Type} [DecidableEq ε] [DecidableEq α] :
    DecidableEq (Except ε α)
  | .error e, .error f =>
    if h : e = f then .isTrue (congrArg Except.error h)
    else .isFalse (fun hc => h (Except.error.inj hc))
  | .error _, .ok _ => .isFalse (fun hc => Except.noConfusion hc)
  | .ok _, .error _ => .isFalse (fun hc => Except.noConfusion hc)
  | .ok a, .ok b =>
    if h : a = b then .isTrue (congrArg Except.ok h)
    else .isFalse (fun hc => h (Except.ok.inj hc))

namespace EmbeddingService

/-- From `services/rag-service/src/services/embeddingService.ts`:
`generateEmbedding` is the mock `new Array(1536).fill(0).map(() => Math.random())`;
the `Math.random` source is modelled as a stream `rng`, draw `i` being `rng i`. -/
def generateEmbedding (text : String) (rng : Nat → ℚ) : List ℚ :=
  (List.range 1536).map rng

/-- Metadata object attached to a retrieved document. -/
structure DocMetadata where
  type : Option String
  category : Option String
  safetyScore : Option ℚ
  name : Option String
  rating : Option ℚ
  distance : Option ℚ
  deriving DecidableEq

/-- A document returned by the vector search. -/
structure RagDoc where
  id : String
  content : String
  similarity : ℚ
  metadata : Option DocMetadata
  deriving DecidableEq

/-- Location object as used in chat requests and search options. -/
structure ChatLocation where
  latitude : ℚ
  longitude : ℚ
  name : Option String
  deriving DecidableEq

/-- Options accepted (and ignored) by `searchSimilarDocuments`. -/
structure SearchOptions where
  limit : Option Nat
  threshold : Option ℚ
  location : Option ChatLocation
  type : Option String
  deriving DecidableEq

/-- The single hardcoded document the mock vector search returns. -/
def mockSearchDoc : RagDoc :=
  ⟨"doc1", "Sample document content for testing", 0.85,
    some ⟨some "place", some "tourist_attraction", none, none, none, none⟩⟩

/-- From `embeddingService.ts`: the mock vector search ignores the embedding and
all options and returns the one hardcoded document. -/
def searchSimilarDocuments (embedding : List ℚ) (options : Option SearchOptions) :
    List RagDoc :=
  [mockSearchDoc]

end EmbeddingService

namespace Str

/-- Fuel-indexed splitter behind `splitOnL`; fuel `s.length` always suffices. -/
def splitOnFuel (sep : List Char) : Nat → List Char → List (List Char)
  | 0, s => [s]
  | fuel+1, s =>
    if sep = [] then [s]
    else if sep.isPrefixOf s then
      [] :: splitOnFuel sep fuel (s.drop sep.length)
    else
      match s with
      | [] => [[]]
      | c :: rest =>
        match splitOnFuel sep fuel rest with
        | [] => [[c]]
        | x :: xs => (c :: x) :: xs

/-- JavaScript `String.prototype.split` with a non-empty string separator,
on the character list of the string. -/
def splitOnL (sep s : List Char) : List (List Char) :=
  splitOnFuel sep s.length s

/-- JavaScript `Array.prototype.join` with a string separator. -/
def joinSepL (sep : List Char) : List (List Char) → List Char
  | [] => []
  | [x] => x
  | x :: y :: l => x ++ sep ++ joinSepL sep (y :: l)

/-- JavaScript `String.prototype.replace` with a string pattern and the empty
replacement: removes the first occurrence of `pat` from `s`. -/
def replaceFirstL (s pat : List Char) : List Char :=
  match splitOnL pat s with
  | [] => s
  | [x] => x
  | x :: xs => x ++ joinSepL pat xs

/-- JavaScript `String.prototype.trim`. -/
def trimL (s : List Char) : List Char :=
  ((s.dropWhile Char.isWhitespace).reverse.dropWhile Char.isWhitespace).reverse

/-- JavaScript `String.prototype.includes` (substring occurrence test). -/
def containsSub (s pat : List Char) : Bool :=
  1 < (splitOnL pat s).length

/-- Digit-string reading, `acc * 10 + digit` left fold. -/
def digitsToNat (l : List Char) : Nat :=
  l.foldl (fun acc c => acc * 10 + (c.toNat - 48)) 0

/-- A concrete instantiation of JavaScript `Number` on integer-coordinate
inputs, used to evaluate the polygon parser on explicit strings. -/
def jsNumZ (l : List Char) : Int :=
  Int.ofNat (digitsToNat l)

/-- A well-behaved printed number: non-empty, and free of whitespace, commas
and parentheses, so that the WKT delimiters remain unambiguous. -/
def goodTok (t : List Char) : Prop :=
  t ≠ [] ∧ ∀ c ∈ t, ¬ c.isWhitespace ∧ c ∉ [',', '(', ')']

instance (t : List Char) : Decidable (goodTok t) := by
  unfold goodTok
  infer_instance

end Str

namespace ChatService

open EmbeddingService

/-- The `context` object of a chat request. -/
structure ChatContextIn where
  location : Option ChatLocation
  userId : Option String
  userName : Option String
  userLanguage : Option String
  incident_id : Option String
  deriving DecidableEq

/-- A chat request (`routes/chat.ts` body after validation). -/
structure ChatRequest where
  message : String
  context : Option ChatContextIn
  conversationId : Option String
  language : Option String
  deriving DecidableEq

/-- A source entry of a chat response. -/
structure ChatSource where
  id : String
  content : String
  similarity : ℚ
  type : String
  deriving DecidableEq

/-- A nearby place extracted from document metadata. -/
structure NearbyPlace where
  name : String
  category : Option String
  rating : Option ℚ
  distance : Option ℚ
  deriving DecidableEq

/-- The `context` object of a chat response: the fallback branch returns the
empty object, the success branch a populated one. -/
inductive RespCtx where
  | empty
  | full (location : Option ChatLocation) (safetyScore : ℚ)
      (nearbyPlaces : List NearbyPlace)
  deriving DecidableEq

/-- The value `generateChatResponse` resolves with. -/
structure ChatResponse where
  message : String
  conversationId : String
  context : RespCtx
  sources : List ChatSource
  confidence : ℚ
  language : String
  processingTime : Int
  deriving DecidableEq

/-- External effects of `generateChatResponse`: clocks, the `Math.random`
sources, the OpenAI client and the conversation-store insert. -/
structure ChatOracle where
  nowStart : Nat
  nowEnd : Nat
  randomSuffix : String
  embedRng : Nat → ℚ
  openaiConfigured : Bool
  openaiModel : Except Unit (Option String)
  storeDb : Except Unit Unit

/-- JavaScript `a || b` on an optional string: `undefined` and `""` are falsy. -/
def jsOrString (o : Option String) (dflt : String) : String :=
  match o with
  | none => dflt
  | some s => if s = "" then dflt else s

/-- `generateConversationId` from `aiService.ts`, over the clock and the
random-suffix draw. -/
def generateConversationId (nowStart : Nat) (suffix : String) : String :=
  "conv_" ++ Nat.repr nowStart ++ "_" ++ suffix

/-- `inferDocumentType` from `aiService.ts`. -/
def inferDocumentType (message : String) : Option String :=
  let ml := message.data.map Char.toLower
  if Str.containsSub ml "emergency".data || Str.containsSub ml "danger".data ||
      Str.containsSub ml "help".data then some "emergency"
  else if Str.containsSub ml "place".data || Str.containsSub ml "location".data ||
      Str.containsSub ml "visit".data then some "place"
  else if Str.containsSub ml "safety".data || Str.containsSub ml "safe".data then
    some "safety"
  else none

/-- `calculateConfidence` from `aiService.ts`. -/
def calculateConfidence (docs : List RagDoc) (response : String) : ℚ :=
  if docs.length = 0 then 0.3
  else
    let avgSimilarity := (docs.map RagDoc.similarity).sum / docs.length
    let responseQuality : ℚ := if 50 < response.length then 0.8 else 0.5
    min (avgSimilarity * responseQuality) 1.0

/-- `calculateSafetyScore` from `aiService.ts`. -/
def calculateSafetyScore (docs : List RagDoc) : ℚ :=
  if docs.length = 0 then 0.5
  else
    let scores := docs.filterMap (fun d => d.metadata.bind DocMetadata.safetyScore)
    if scores.length = 0 then 0.5 else scores.sum / scores.length

/-- `extractNearbyPlaces` from `aiService.ts`. -/
def extractNearbyPlaces (docs : List RagDoc) : List NearbyPlace :=
  ((docs.filter (fun d =>
      d.metadata.elim false (fun m => m.type == some "place" && m.name.isSome))).take 3).map
    (fun d =>
      match d.metadata with
      | some m => ⟨m.name.getD "", m.category, m.rating, m.distance⟩
      | none => ⟨"", none, none, none⟩)

/-- The source mapping of a retrieved document into a response source entry:
content truncated to 200 characters with a `...` suffix, metadata type
defaulting to `unknown`. -/
def mkSource (doc : RagDoc) : ChatSource :=
  ⟨doc.id, String.mk (doc.content.data.take 200) ++ "...", doc.similarity,
    match doc.metadata with
    | some m => jsOrString m.type "unknown"
    | none => "unknown"⟩

/-- The fixed fallback message of the catch branch of `generateChatResponse`. -/
def chatFallbackMessage : String :=
  "I apologize, but I am unable to process your request at this time. Please try again later or contact support for assistance."

/-- The canned response used when no OpenAI key is configured. -/
def aiNoKeyResponse (message : String) : String :=
  "I understand you\u0027re asking about: \"" ++ message ++
    "\". While I don\u0027t have access to AI services right now, I can tell you that this appears to be related to tourist safety. Please contact local authorities if this is an emergency, or check with tourist information centers for general inquiries."

/-- `generateChatResponse` from `aiService.ts`. The conversation id is chosen
before the try block; inside it, the mocked embedding and search never fail and
the conversation store swallows its own errors, so the only failure source is
the OpenAI completion call; its failure lands in the catch branch. -/
def generateChatResponse (o : ChatOracle) (request : ChatRequest) : ChatResponse :=
  let conversationId := jsOrString request.conversationId
    (generateConversationId o.nowStart o.randomSuffix)
  let queryEmbedding := generateEmbedding request.message o.embedRng
  let relevantDocs := searchSimilarDocuments queryEmbedding
    (some ⟨some 5, some 0.7, request.context.bind ChatContextIn.location,
      inferDocumentType request.message⟩)
  let aiOutcome : Except Unit String :=
    if o.openaiConfigured then
      match o.openaiModel with
      | .error e => .error e
      | .ok content =>
        .ok (jsOrString content "I apologize, but I cannot generate a response at this time.")
    else
      .ok (aiNoKeyResponse request.message)
  match aiOutcome with
  | .error _ =>
    ⟨chatFallbackMessage, conversationId, .empty, [], 0,
      jsOrString request.language "en", (o.nowEnd : Int) - (o.nowStart : Int)⟩
  | .ok aiResponse =>
    ⟨aiResponse, conversationId,
      .full (request.context.bind ChatContextIn.location)
        (calculateSafetyScore relevantDocs) (extractNearbyPlaces relevantDocs),
      relevantDocs.map mkSource, calculateConfidence relevantDocs aiResponse,
      jsOrString request.language "en", (o.nowEnd : Int) - (o.nowStart : Int)⟩

/-- Concrete oracle with a failing OpenAI call, for the C10 counterexample. -/
def c10Oracle : ChatOracle :=
  ⟨1, 2, "x", fun _ => 0, true, .error (), .ok ()⟩

/-- Concrete request carrying an empty-string conversation id. -/
def c10Request : ChatRequest :=
  ⟨"hi", none, some "", none⟩

end ChatService

namespace GeofenceService

/-- A row returned by the `check_point_in_geofences` database function. -/
structure GeoRow where
  geofence_id : String
  name : String
  type : String
  description : Option String
  deriving DecidableEq

/-- The `GeofenceViolation` interface of `geofenceService.ts`. -/
structure GeofenceViolation where
  id : String
  name : String
  type : String
  description : Option String
  deriving DecidableEq

/-- Outcome of a Supabase call: data (possibly null), an error object, or a
thrown exception. -/
inductive DbOutcome (α : Type) where
  | ok (rows : Option α)
  | err
  | thrown
  deriving DecidableEq

/-- `checkGeofences` from `geofenceService.ts`: forwards the point to the
`check_point_in_geofences` RPC and maps the returned rows field by field
(`geofence_id` to `id`, plus `name`, `type`, `description`); an error object,
null data, or a thrown exception all yield the empty list. -/
def checkGeofences (rpc : ℚ → ℚ → DbOutcome (List GeoRow))
    (latitude longitude : ℚ) : List GeofenceViolation :=
  match rpc latitude longitude with
  | .thrown => []
  | .err => []
  | .ok none => []
  | .ok (some rows) =>
    rows.map (fun v => ⟨v.geofence_id, v.name, v.type, v.description⟩)

/-- `parsePolygonCoordinates` from `geofenceService.ts`, with JavaScript
`Number` abstracted as `num` and the value of a missing destructured element
as `nan`: strips the `POLYGON((` and `))` delimiters, splits on comma-space,
reads each token as `lng lat`, returns `[lat, lng]` pairs and drops the
duplicate closing coordinate. -/
def parsePolygonCoordinates {α : Type} (num : List Char → α) (nan : α)
    (geometry : List Char) : List (α × α) :=
  let s₁ := Str.replaceFirstL geometry "POLYGON((".data
  let s₂ := Str.replaceFirstL s₁ "))".data
  let coords := (Str.splitOnL ", ".data s₂).map (fun coord =>
    let nums := (Str.splitOnL [' '] (Str.trimL coord)).map num
    (nums.getD 1 nan, nums.getD 0 nan))
  coords.dropLast

/-- The PostGIS polygon WKT string built inside `createGeofence`: each
`[lat, lng]` pair is written `lng lat`, pairs are joined by comma-space, and
the first pair is appended again as the closing point. On an empty coordinate
list the source throws (caught, `createGeofence` returns null), hence `none`. -/
def createGeofencePolygonWKT {α : Type} (numToStr : α → List Char) :
    List (α × α) → Option (List Char)
  | [] => none
  | c0 :: rest =>
    some ("POLYGON((".data
      ++ Str.joinSepL ", ".data
          ((c0 :: rest).map (fun p => numToStr p.2 ++ [' '] ++ numToStr p.1))
      ++ ", ".data ++ numToStr c0.2 ++ [' '] ++ numToStr c0.1
      ++ "))".data)

/-- Row id returned by the geofences insert. -/
structure GeofenceInsertRow where
  id : String
  deriving DecidableEq

/-- `createGeofence` from `geofenceService.ts`: builds the WKT string, inserts
it, and returns the new id, or null on a database error or a thrown exception
(including the throw on an empty coordinate list). -/
def createGeofence {α : Type} (numToStr : α → List Char)
    (db : List Char → DbOutcome GeofenceInsertRow)
    (name : String) (type : String) (coordinates : List (α × α))
    (description : Option String) (createdBy : Option String) :
    Option String :=
  match createGeofencePolygonWKT numToStr coordinates with
  | none => none
  | some wkt =>
    match db wkt with
    | .thrown => none
    | .err => none
    | .ok none => none
    | .ok (some row) => some row.id

/-- A geofences table row as selected by `getActiveGeofences`. -/
structure GeofenceTableRow where
  id : String
  name : String
  type : String
  description : Option String
  geometry : List Char
  created_at : String
  deriving DecidableEq

/-- An entry of the `getActiveGeofences` result: the polygon coordinates are
parsed from the stored WKT geometry in application code. -/
structure ActiveGeofence (α : Type) where
  id : String
  name : String
  type : String
  description : Option String
  coordinates : List (α × α)
  createdAt : String
  deriving DecidableEq

/-- `getActiveGeofences` from `geofenceService.ts`. -/
def getActiveGeofences {α : Type} (num : List Char → α) (nan : α)
    (db : DbOutcome (List GeofenceTableRow)) : List (ActiveGeofence α) :=
  match db with
  | .thrown => []
  | .err => []
  | .ok none => []
  | .ok (some rows) =>
    rows.map (fun g =>
      ⟨g.id, g.name, g.type, g.description,
        parsePolygonCoordinates num nan g.geometry, g.created_at⟩)

end GeofenceService

namespace AlertsRoute

open GeofenceService

/-- The validated body of POST `/api/alerts/panic` plus the authenticated
user id. -/
structure PanicRequest where
  latitude : ℚ
  longitude : ℚ
  message : Option String
  severity : String
  type : String
  userId : String
  deriving DecidableEq

/-- The tourists row fetched for the alert. -/
structure UserRow where
  name : String
  phone_number : String
  emergency_contact : Option String
  deriving DecidableEq

/-- The alerts row returned by the insert `.select().single()`. -/
structure AlertRow where
  id : String
  type : String
  severity : String
  status : String
  latitude : ℚ
  longitude : ℚ
  message : Option String
  created_at : String
  deriving DecidableEq

/-- An Express `ApiError` (status, message). -/
structure ApiErr where
  status : Nat
  message : String
  deriving DecidableEq

/-- Side effects the panic handler can perform, in trace order. The
`deleteAlertRow` constructor exists so that the absence of a compensating
delete is expressible; the handler never emits it. -/
inductive PanicEvent where
  | fetchUser
  | geofenceCheck (lat lng : ℚ)
  | insertAlertRow
  | insertLocationRow
  | emitNewAlert (alertId : String)
  | pushNotify
  | blockchainAnchor
  | updateAlertBlockchain (alertId : String)
  | deleteAlertRow (alertId : String)
  deriving DecidableEq

/-- Blockchain anchor result as seen by the handler. -/
structure AnchorResult where
  hash : String
  network : String
  deriving DecidableEq

/-- External outcomes for one run of the panic handler. -/
structure PanicOracle where
  userRow : Option UserRow
  geoRpc : ℚ → ℚ → DbOutcome (List GeoRow)
  insertAlert : Except Unit AlertRow
  pushResult : Except Unit Unit
  anchorResult : Except Unit AnchorResult

/-- `getEstimatedResponseTime` from the alerts route. -/
def getEstimatedResponseTime (severity : String) (inRestrictedArea : Bool) :
    String :=
  let minutes : Nat :=
    if severity = "critical" then 5
    else if severity = "high" then 10
    else if severity = "medium" then 20
    else if severity = "low" then 30
    else 15
  let minutes := if inRestrictedArea then minutes + 10 else minutes
  Nat.repr minutes ++ " minutes"

/-- The alert object of the 201 response body. -/
structure PanicResponseAlert where
  id : String
  type : String
  severity : String
  status : String
  latitude : ℚ
  longitude : ℚ
  message : Option String
  createdAt : String
  estimatedResponseTime : String
  deriving DecidableEq

/-- The 201 response body of the panic handler. -/
structure PanicResponse where
  status : Nat
  alert : PanicResponseAlert
  geofenceViolations : List GeofenceViolation
  deriving DecidableEq

/-- The panic-alert handler POST `/api/alerts/panic`: fetch the user row, check
geofences, insert the alert row (500 `Failed to create alert` on a database
error), insert a tracking location row, emit `new_alert`, then the best-effort
push notification (severity high or critical; a thrown error is caught and
ignored) and the best-effort blockchain anchoring (severity critical; on
success the alert row is updated with the transaction, a thrown error is
caught and ignored), and finally respond 201 with the created alert. -/
def panicHandler (o : PanicOracle) (req : PanicRequest) :
    List PanicEvent × Except ApiErr PanicResponse :=
  let geofenceViolations := checkGeofences o.geoRpc req.latitude req.longitude
  let tr₀ : List PanicEvent :=
    [.fetchUser, .geofenceCheck req.latitude req.longitude, .insertAlertRow]
  match o.insertAlert with
  | .error _ => (tr₀, .error ⟨500, "Failed to create alert"⟩)
  | .ok alert =>
    let tr₁ := tr₀ ++ [.insertLocationRow, .emitNewAlert alert.id]
    let tr₂ := tr₁ ++
      (if req.severity = "critical" ∨ req.severity = "high" then
        [PanicEvent.pushNotify] else [])
    let tr₃ := tr₂ ++
      (if req.severity = "critical" then
        PanicEvent.blockchainAnchor ::
          (match o.anchorResult with
           | .ok _ => [PanicEvent.updateAlertBlockchain alert.id]
           | .error _ => [])
      else [])
    (tr₃, .ok ⟨201,
      ⟨alert.id, alert.type, alert.severity, alert.status, alert.latitude,
        alert.longitude, alert.message, alert.created_at,
        getEstimatedResponseTime req.severity (0 < geofenceViolations.length)⟩,
      geofenceViolations⟩)

/-- `e₁` occurs before `e₂` in the trace: positions `i < j` hold them. -/
def eventBefore (tr : List PanicEvent) (e₁ e₂ : PanicEvent) : Prop :=
  ∃ i j : Fin tr.length, (i : Nat) < (j : Nat) ∧ tr.get i = e₁ ∧ tr.get j = e₂

instance (tr : List PanicEvent) (e₁ e₂ : PanicEvent) :
    Decidable (eventBefore tr e₁ e₂) := by
  unfold eventBefore
  exact inferInstance

/-- Concrete critical panic request used by closed instances. -/
def cReq : PanicRequest :=
  ⟨28, 77, some "help", "critical", "panic", "u1"⟩

/-- Concrete alerts row used by closed instances. -/
def cAlert : AlertRow :=
  ⟨"a1", "panic", "critical", "active", 28, 77, some "help", "t0"⟩

/-- Concrete oracle where every call succeeds and no geofence row matches. -/
def cOracleOk : PanicOracle :=
  ⟨some ⟨"Asha", "123", none⟩, fun _ _ => .ok (some []), .ok cAlert,
    .ok (), .ok ⟨"0xh", "mock"⟩⟩

/-- Concrete oracle whose push and anchoring calls both throw. -/
def cOracleSideFx : PanicOracle :=
  ⟨some ⟨"Asha", "123", none⟩, fun _ _ => .ok (some []), .ok cAlert,
    .error (), .error ()⟩

/-- Concrete oracle whose alert insert returns a database error. -/
def cOracleInsErr : PanicOracle :=
  ⟨some ⟨"Asha", "123", none⟩, fun _ _ => .ok (some []), .error (),
    .ok (), .error ()⟩

/-- Concrete oracle whose geofence RPC returns an error object. -/
def cOracleGeoErr : PanicOracle :=
  ⟨some ⟨"Asha", "123", none⟩, fun _ _ => .err, .ok cAlert,
    .ok (), .ok ⟨"0xh", "mock"⟩⟩

end AlertsRoute

namespace LocationRoute

open GeofenceService

/-- The validated body of POST `/api/locations/update` plus the authenticated
user id. -/
structure LocationUpdateRequest where
  latitude : ℚ
  longitude : ℚ
  accuracy : ℚ
  speed : Option ℚ
  userId : String
  deriving DecidableEq

/-- The locations row returned by the insert. -/
structure LocationRow where
  id : String
  latitude : ℚ
  longitude : ℚ
  accuracy : ℚ
  created_at : String
  deriving DecidableEq

/-- An anomaly-detection result. -/
structure AnomalyAlert where
  type : String
  confidence : ℚ
  deriving DecidableEq

/-- The alerts row returned by the automatic geofence-violation insert. -/
structure ViolationAlertRow where
  id : String
  deriving DecidableEq

/-- Side effects of the location-update handler, in trace order. -/
inductive LocEvent where
  | insertLocationRow
  | geofenceCheck (lat lng : ℚ)
  | anomalyDetect
  | insertViolationAlert
  | emitGeofenceViolation (geofenceName : String)
  | emitAnomalyDetected
  | emitLocationUpdate
  deriving DecidableEq

/-- External outcomes for one run of the location-update handler. -/
structure LocOracle where
  insertLocation : Except Unit LocationRow
  geoRpc : ℚ → ℚ → DbOutcome (List GeoRow)
  anomaly : Except Unit (Option AnomalyAlert)
  insertAlertData : Option ViolationAlertRow

/-- The `geofenceStatus` object of the response body. -/
structure GeofenceStatus where
  violations : List GeofenceViolation
  inRestrictedArea : Bool
  inSafeZone : Bool
  deriving DecidableEq

/-- The 200 response body of the location-update handler. -/
structure LocationUpdateResponse where
  status : Nat
  locationId : String
  geofenceStatus : GeofenceStatus
  anomalyDetected : Bool
  deriving DecidableEq

/-- The location-update handler POST `/api/locations/update`: insert the
location row (500 `Failed to save location` on error), check geofences, run
anomaly detection (a thrown error is caught, leaving no anomaly), insert an
automatic alert and emit `geofence_violation` when a restricted geofence is
violated, emit `anomaly_detected` when an anomaly was found, emit
`location_update` to the dashboard, and respond 200. -/
def locationUpdateHandler (o : LocOracle) (req : LocationUpdateRequest) :
    List LocEvent × Except AlertsRoute.ApiErr LocationUpdateResponse :=
  match o.insertLocation with
  | .error _ => ([.insertLocationRow], .error ⟨500, "Failed to save location"⟩)
  | .ok location =>
    let geofenceViolations := checkGeofences o.geoRpc req.latitude req.longitude
    let anomalyAlert : Option AnomalyAlert :=
      match o.anomaly with
      | .error _ => none
      | .ok a => a
    let tr₀ : List LocEvent :=
      [.insertLocationRow, .geofenceCheck req.latitude req.longitude,
        .anomalyDetect]
    let restrictedViolations :=
      geofenceViolations.filter (fun v => v.type == "restricted")
    let tr₁ := tr₀ ++
      (if 0 < geofenceViolations.length then
        (match restrictedViolations with
         | [] => []
         | rv :: _ =>
           LocEvent.insertViolationAlert ::
             (match o.insertAlertData with
              | some _ => [LocEvent.emitGeofenceViolation rv.name]
              | none => []))
      else [])
    let tr₂ := tr₁ ++ (match anomalyAlert with
      | some _ => [LocEvent.emitAnomalyDetected]
      | none => [])
    let tr₃ := tr₂ ++ [LocEvent.emitLocationUpdate]
    (tr₃, .ok ⟨200, location.id,
      ⟨geofenceViolations,
        geofenceViolations.any (fun v => v.type == "restricted"),
        geofenceViolations.any (fun v => v.type == "safe")⟩,
      anomalyAlert.isSome⟩)

/-- Concrete location-update request used by closed instances. -/
def cLocReq : LocationUpdateRequest :=
  ⟨28, 77, 10, none, "u1"⟩

/-- Concrete oracle whose geofence RPC throws. -/
def cLocOracleGeoErr : LocOracle :=
  ⟨.ok ⟨"l1", 28, 77, 10, "t0"⟩, fun _ _ => .thrown, .ok none, none⟩

end LocationRoute

namespace BlockchainService

/-- The input of `anchorToBlockchain`. -/
structure AnchorData where
  alert_id : Option String
  user_id : Option String
  type : String
  severity : Option String
  timestamp : String
  location_hash : Option String
  deriving DecidableEq

/-- The object serialized and hashed by `anchorToBlockchain`: the same fields,
with the PII fields already passed through `hashPII`. -/
structure AnchorPayload where
  alert_id : Option String
  user_id : Option String
  type : String
  severity : Option String
  timestamp : String
  location_hash : Option String
  deriving DecidableEq

/-- The environment of the blockchain service: whether `MOCK_BLOCKCHAIN` equals
the string true, and the optional `POLYGON_RPC_URL`, `CONTRACT_ADDRESS` and the
`ENCRYPTION_KEY`. -/
structure AnchorEnv where
  mockBlockchain : Bool
  polygonRpcUrl : Option String
  contractAddress : Option String
  encryptionKey : String
  deriving DecidableEq

/-- A mined transaction receipt. -/
structure ChainReceipt where
  hash : String
  blockNumber : Nat
  deriving DecidableEq

/-- External effects: the SHA-256 and JSON-serialization primitives, the clock,
the `crypto.randomBytes` draw, and the outcome of the on-chain store call. -/
structure AnchorOracle where
  sha256 : String → String
  stringify : AnchorPayload → String
  now : Nat
  randomBytes20Hex : String
  storeHash : Except Unit ChainReceipt

/-- Side effects of `anchorToBlockchain` and `deployContract`. -/
inductive BEvent where
  | dbInsertAnchor (network : String)
  | chainStoreHash
  | deployContractCall
  deriving DecidableEq

/-- The `BlockchainAnchor` record returned on success. -/
structure BlockchainAnchor where
  hash : String
  network : String
  transactionHash : Option String
  blockNumber : Option Nat
  deriving DecidableEq

/-- `hashPII` from `blockchainService.ts`. -/
def hashPII (sha256 : String → String) (encryptionKey : String)
    (data : String) : String :=
  sha256 (data ++ encryptionKey)

/-- The payload hashed by `anchorToBlockchain`: user id and location hash are
passed through `hashPII`, the other fields verbatim. -/
def payloadOf (sha256 : String → String) (encryptionKey : String)
    (data : AnchorData) : AnchorPayload :=
  ⟨data.alert_id, data.user_id.map (hashPII sha256 encryptionKey), data.type,
    data.severity, data.timestamp,
    data.location_hash.map (hashPII sha256 encryptionKey)⟩

/-- `deployContract` from `blockchainService.ts`: it never compiles or deploys
the embedded Solidity source; it returns `0x` followed by 20 random bytes in
hex as a mock contract address. -/
def deployContract (randomBytes20Hex : String) : String :=
  "0x" ++ randomBytes20Hex

/-- `anchorToBlockchain` from `blockchainService.ts`. The SHA-256 of the
serialized payload becomes `0x`-prefixed `bytes32Hash`. In mock mode
(`MOCK_BLOCKCHAIN` set to true, or no `POLYGON_RPC_URL`) the function only
inserts a tracking row and returns a mock record. Otherwise it connects to the
chain (deploying the mock contract when no `CONTRACT_ADDRESS` is set), stores
the hash on chain, and returns a `polygon-mumbai` record; on a chain failure
it inserts a fallback row and rethrows. -/
def anchorToBlockchain (env : AnchorEnv) (o : AnchorOracle)
    (data : AnchorData) : List BEvent × Except Unit BlockchainAnchor :=
  let dataHash :=
    o.sha256 (o.stringify (payloadOf o.sha256 env.encryptionKey data))
  let bytes32Hash := "0x" ++ dataHash
  if env.mockBlockchain ∨ env.polygonRpcUrl = none then
    ([.dbInsertAnchor "mock"],
      .ok ⟨bytes32Hash, "mock", some ("mock_tx_" ++ Nat.repr o.now), none⟩)
  else
    let deployEvents : List BEvent :=
      match env.contractAddress with
      | some _ => []
      | none => [.deployContractCall]
    match o.storeHash with
    | .ok receipt =>
      (deployEvents ++ [.chainStoreHash, .dbInsertAnchor "polygon-mumbai"],
        .ok ⟨bytes32Hash, "polygon-mumbai", some receipt.hash,
          some receipt.blockNumber⟩)
    | .error e =>
      (deployEvents ++ [.chainStoreHash, .dbInsertAnchor "fallback"], .error e)

/-- Concrete non-mock environment: mock flag unset, RPC url and contract set. -/
def c7RealEnv : AnchorEnv :=
  ⟨false, some "https://rpc.example", some "0xc", "k"⟩

/-- Concrete mock environment: no RPC url configured. -/
def c7MockEnv : AnchorEnv :=
  ⟨false, none, none, "k"⟩

/-- Concrete oracle with constant hashing and a succeeding chain write. -/
def c7Oracle : AnchorOracle :=
  ⟨fun _ => "h", fun _ => "s", 7, "ab", .ok ⟨"0xtx", 5⟩⟩

/-- Concrete anchoring input. -/
def c7Data : AnchorData :=
  ⟨some "a1", some "u1", "panic", some "critical", "t0", some "28,77"⟩

end BlockchainService

/-- C5: for every input text, `generateEmbedding` returns exactly 1536 numbers, the
`i`-th being the `i`-th draw of the random source (hence in `[0,1)` whenever the
source draws in `[0,1)`), and the result does not depend on the input text. -/
theorem c5_generateEmbedding_random_stub (rng : Nat → ℚ) (text : String)
    (hr : ∀ n, 0 ≤ rng n ∧ rng n < 1) :
    (EmbeddingService.generateEmbedding text rng).length = 1536 ∧
    (∀ i : Nat, i < 1536 →
      (EmbeddingService.generateEmbedding text rng).get? i = some (rng i)) ∧
    (∀ x ∈ EmbeddingService.generateEmbedding text rng, 0 ≤ x ∧ x < 1) ∧
    (∀ t₂ : String,
      EmbeddingService.generateEmbedding text rng =
        EmbeddingService.generateEmbedding t₂ rng) := by
  refine ⟨by simp [EmbeddingService.generateEmbedding], ?_, ?_, fun _ => rfl⟩
  · intro i hi
    simp only [EmbeddingService.generateEmbedding, List.get?_eq_getElem?,
      List.getElem?_map]
    exact Option.map_eq_some'.mpr ⟨i, by simp [List.getElem?_range hi], rfl⟩
  · intro x hx
    simp only [EmbeddingService.generateEmbedding, List.mem_map] at hx
    obtain ⟨i, _, rfl⟩ := hx
    exact hr i

/-- Closed witness for C5 at a concrete random stream and input text. -/
theorem c5_generateEmbedding_random_stub_witness :
    (EmbeddingService.generateEmbedding "hello"
      (fun _ => (1/2 : ℚ))).length = 1536 :=
  (c5_generateEmbedding_random_stub (fun _ => (1/2 : ℚ)) "hello"
    (fun _ => by norm_num)).1

/-- C6: the mock vector search returns the same one-element hardcoded result for
every query embedding and every options value: the document `doc1` with content
`Sample document content for testing`, similarity `0.85`, metadata type `place`;
no option influences the result. -/
theorem c6_searchSimilarDocuments_hardcoded :
    ∀ (e : List ℚ) (o : Option EmbeddingService.SearchOptions),
      EmbeddingService.searchSimilarDocuments e o =
        [⟨"doc1", "Sample document content for testing", 0.85,
          some ⟨some "place", some "tourist_attraction", none, none, none, none⟩⟩] ∧
      (∀ (e₂ : List ℚ) (o₂ : Option EmbeddingService.SearchOptions),
        EmbeddingService.searchSimilarDocuments e o =
          EmbeddingService.searchSimilarDocuments e₂ o₂) :=
  fun _ _ => ⟨rfl, fun _ _ => rfl⟩

/-- C10 counterexample: with the conversation id provided as the empty string
and a failing OpenAI call, the fallback response carries a freshly generated
conversation id, not the provided one, because the source uses JavaScript
truthiness (`request.conversationId || generateConversationId()`). -/
theorem c10_counterexample_empty_conversation_id :
    ChatService.c10Request.conversationId = some "" ∧
    (ChatService.generateChatResponse ChatService.c10Oracle
        ChatService.c10Request).conversationId = "conv_1_x" ∧
    ("conv_1_x" : String) ≠ "" := by
  exact ⟨rfl, rfl, by decide⟩

/-- C10 (amended): `generateChatResponse` is total (returns a `ChatResponse`,
never a rejection); whenever the OpenAI completion call fails, it returns the
fixed fallback message with confidence 0, empty sources, empty context, the
conversation id chosen at entry (the request conversation id when provided and
non-empty under JavaScript truthiness, otherwise a freshly generated one) and
the request language defaulting to `en`. -/
theorem c10_amended_chat_fallback (o : ChatService.ChatOracle)
    (request : ChatService.ChatRequest)
    (hk : o.openaiConfigured = true) (hf : o.openaiModel = .error ()) :
    ChatService.generateChatResponse o request =
      ⟨ChatService.chatFallbackMessage,
        ChatService.jsOrString request.conversationId
          (ChatService.generateConversationId o.nowStart o.randomSuffix),
        .empty, [], 0, ChatService.jsOrString request.language "en",
        (o.nowEnd : Int) - (o.nowStart : Int)⟩ := by
  simp [ChatService.generateChatResponse, hk, hf]

/-- Closed witness for C10 (amended) at the concrete failing oracle. -/
theorem c10_amended_chat_fallback_witness :
    ChatService.generateChatResponse ChatService.c10Oracle ChatService.c10Request =
      ⟨ChatService.chatFallbackMessage, "conv_1_x", .empty, [], 0, "en", 1⟩ := by
  have h := c10_amended_chat_fallback ChatService.c10Oracle ChatService.c10Request
    rfl rfl
  rw [h]
  rfl

/-- Helper: shape of the panic-handler trace when the alert insert succeeds. -/
theorem panicHandler_trace_ok (o : AlertsRoute.PanicOracle)
    (req : AlertsRoute.PanicRequest) (alert : AlertsRoute.AlertRow)
    (h : o.insertAlert = .ok alert) :
    (AlertsRoute.panicHandler o req).1 =
      [.fetchUser, .geofenceCheck req.latitude req.longitude, .insertAlertRow,
        .insertLocationRow, .emitNewAlert alert.id] ++
      (if req.severity = "critical" ∨ req.severity = "high" then
        [AlertsRoute.PanicEvent.pushNotify] else []) ++
      (if req.severity = "critical" then
        AlertsRoute.PanicEvent.blockchainAnchor ::
          (match o.anchorResult with
           | .ok _ => [AlertsRoute.PanicEvent.updateAlertBlockchain alert.id]
           | .error _ => [])
      else []) := by
  simp [AlertsRoute.panicHandler, h, List.append_assoc]

/-- Helper: the 201 response of the panic handler when the insert succeeds. -/
theorem panicHandler_resp_ok (o : AlertsRoute.PanicOracle)
    (req : AlertsRoute.PanicRequest) (alert : AlertsRoute.AlertRow)
    (h : o.insertAlert = .ok alert) :
    (AlertsRoute.panicHandler o req).2 = .ok ⟨201,
      ⟨alert.id, alert.type, alert.severity, alert.status, alert.latitude,
        alert.longitude, alert.message, alert.created_at,
        AlertsRoute.getEstimatedResponseTime req.severity
          (0 < (GeofenceService.checkGeofences o.geoRpc
            req.latitude req.longitude).length)⟩,
      GeofenceService.checkGeofences o.geoRpc req.latitude req.longitude⟩ := by
  simp [AlertsRoute.panicHandler, h]

/-- Helper: the panic handler on a failing alert insert. -/
theorem panicHandler_insert_err (o : AlertsRoute.PanicOracle)
    (req : AlertsRoute.PanicRequest) (e : Unit)
    (h : o.insertAlert = .error e) :
    AlertsRoute.panicHandler o req =
      ([.fetchUser, .geofenceCheck req.latitude req.longitude, .insertAlertRow],
        .error ⟨500, "Failed to create alert"⟩) := by
  simp [AlertsRoute.panicHandler, h]

/-- C1 counterexample: on a concrete critical request where everything
succeeds, the `new_alert` broadcast is emitted before the push notification
and before the blockchain anchoring, contradicting the claimed order
(geofence check, push, blockchain, then broadcast). -/
theorem c1_counterexample_broadcast_before_push :
    AlertsRoute.cOracleOk.insertAlert = .ok AlertsRoute.cAlert ∧
    AlertsRoute.PanicEvent.pushNotify ∈
      (AlertsRoute.panicHandler AlertsRoute.cOracleOk AlertsRoute.cReq).1 ∧
    AlertsRoute.PanicEvent.blockchainAnchor ∈
      (AlertsRoute.panicHandler AlertsRoute.cOracleOk AlertsRoute.cReq).1 ∧
    ¬ AlertsRoute.eventBefore
      (AlertsRoute.panicHandler AlertsRoute.cOracleOk AlertsRoute.cReq).1
      .pushNotify (.emitNewAlert "a1") ∧
    ¬ AlertsRoute.eventBefore
      (AlertsRoute.panicHandler AlertsRoute.cOracleOk AlertsRoute.cReq).1
      .blockchainAnchor (.emitNewAlert "a1") ∧
    AlertsRoute.eventBefore
      (AlertsRoute.panicHandler AlertsRoute.cOracleOk AlertsRoute.cReq).1
      (.emitNewAlert "a1") .pushNotify := by
  decide

/-- C1 (amended): for every request where the alert insert succeeds, the side
effects occur in the order: geofence check, then socket broadcast of the new
alert, then (when performed) the push notification, then (when performed) the
blockchain anchoring. -/
theorem c1_amended_panic_side_effect_order (o : AlertsRoute.PanicOracle)
    (req : AlertsRoute.PanicRequest) (alert : AlertsRoute.AlertRow)
    (h : o.insertAlert = .ok alert) :
    AlertsRoute.eventBefore (AlertsRoute.panicHandler o req).1
      (.geofenceCheck req.latitude req.longitude) (.emitNewAlert alert.id) ∧
    (AlertsRoute.PanicEvent.pushNotify ∈ (AlertsRoute.panicHandler o req).1 →
      AlertsRoute.eventBefore (AlertsRoute.panicHandler o req).1
        (.emitNewAlert alert.id) .pushNotify) ∧
    (AlertsRoute.PanicEvent.blockchainAnchor ∈
        (AlertsRoute.panicHandler o req).1 →
      AlertsRoute.eventBefore (AlertsRoute.panicHandler o req).1
        (.emitNewAlert alert.id) .blockchainAnchor ∧
      (AlertsRoute.PanicEvent.pushNotify ∈ (AlertsRoute.panicHandler o req).1 →
        AlertsRoute.eventBefore (AlertsRoute.panicHandler o req).1
          .pushNotify .blockchainAnchor)) := by
  rw [panicHandler_trace_ok o req alert h]
  by_cases hc : req.severity = "critical"
  · rw [if_pos (Or.inl hc), if_pos hc]
    rcases har : o.anchorResult with e | a <;> simp only [har] <;>
      exact ⟨⟨⟨1, by simp⟩, ⟨4, by simp⟩, by simp, rfl, rfl⟩,
        fun _ => ⟨⟨4, by simp⟩, ⟨5, by simp⟩, by simp, rfl, rfl⟩,
        fun _ => ⟨⟨⟨4, by simp⟩, ⟨6, by simp⟩, by simp, rfl, rfl⟩,
          fun _ => ⟨⟨5, by simp⟩, ⟨6, by simp⟩, by simp, rfl, rfl⟩⟩⟩
  · by_cases hh : req.severity = "high"
    · rw [if_pos (Or.inr hh), if_neg hc]
      exact ⟨⟨⟨1, by simp⟩, ⟨4, by simp⟩, by simp, rfl, rfl⟩,
        fun _ => ⟨⟨4, by simp⟩, ⟨5, by simp⟩, by simp, rfl, rfl⟩,
        fun hmem => absurd hmem (by simp)⟩
    · rw [if_neg (by tauto), if_neg hc]
      exact ⟨⟨⟨1, by simp⟩, ⟨4, by simp⟩, by simp, rfl, rfl⟩,
        fun hmem => absurd hmem (by simp),
        fun hmem => absurd hmem (by simp)⟩

/-- Closed witness for C1 (amended) at the concrete successful critical run. -/
theorem c1_amended_panic_side_effect_order_witness :
    AlertsRoute.eventBefore
      (AlertsRoute.panicHandler AlertsRoute.cOracleOk AlertsRoute.cReq).1
      (.geofenceCheck 28 77) (.emitNewAlert "a1") ∧
    AlertsRoute.eventBefore
      (AlertsRoute.panicHandler AlertsRoute.cOracleOk AlertsRoute.cReq).1
      (.emitNewAlert "a1") .pushNotify ∧
    AlertsRoute.eventBefore
      (AlertsRoute.panicHandler AlertsRoute.cOracleOk AlertsRoute.cReq).1
      .pushNotify .blockchainAnchor := by
  have h := c1_amended_panic_side_effect_order AlertsRoute.cOracleOk
    AlertsRoute.cReq AlertsRoute.cAlert rfl
  exact ⟨h.1, h.2.1 (by decide), (h.2.2 (by decide)).2 (by decide)⟩

/-- C2: for every request where the alert row insert succeeds, whatever the
push-notification and blockchain outcomes (including thrown failures, which
are caught), the handler responds 201 with the created alert, each of the two
side-effect calls is attempted at most once (no retry), and no event ever
deletes the inserted alert row (no compensating transaction). -/
theorem c2_best_effort_side_effects (o : AlertsRoute.PanicOracle)
    (req : AlertsRoute.PanicRequest) (alert : AlertsRoute.AlertRow)
    (h : o.insertAlert = .ok alert) :
    (AlertsRoute.panicHandler o req).2 = .ok ⟨201,
      ⟨alert.id, alert.type, alert.severity, alert.status, alert.latitude,
        alert.longitude, alert.message, alert.created_at,
        AlertsRoute.getEstimatedResponseTime req.severity
          (0 < (GeofenceService.checkGeofences o.geoRpc
            req.latitude req.longitude).length)⟩,
      GeofenceService.checkGeofences o.geoRpc req.latitude req.longitude⟩ ∧
    (AlertsRoute.panicHandler o req).1.count .pushNotify ≤ 1 ∧
    (AlertsRoute.panicHandler o req).1.count .blockchainAnchor ≤ 1 ∧
    (∀ id, AlertsRoute.PanicEvent.deleteAlertRow id ∉
      (AlertsRoute.panicHandler o req).1) := by
  refine ⟨panicHandler_resp_ok o req alert h, ?_, ?_, ?_⟩ <;>
    rw [panicHandler_trace_ok o req alert h] <;>
    rcases har : o.anchorResult with e | a <;>
    by_cases hc : req.severity = "critical" <;>
    by_cases hh : req.severity = "high" <;>
    simp [hc, hh, List.count_append, List.count_cons]

/-- Closed witness for C2: with both side-effect calls throwing, the concrete
critical run still responds 201 with the created alert. -/
theorem c2_best_effort_side_effects_witness :
    (AlertsRoute.panicHandler AlertsRoute.cOracleSideFx AlertsRoute.cReq).2 =
      .ok ⟨201,
        ⟨"a1", "panic", "critical", "active", 28, 77, some "help", "t0",
          "5 minutes"⟩, []⟩ ∧
    (AlertsRoute.panicHandler AlertsRoute.cOracleSideFx
      AlertsRoute.cReq).1.count .pushNotify ≤ 1 ∧
    (AlertsRoute.panicHandler AlertsRoute.cOracleSideFx
      AlertsRoute.cReq).1.count .blockchainAnchor ≤ 1 := by
  have h := c2_best_effort_side_effects AlertsRoute.cOracleSideFx
    AlertsRoute.cReq AlertsRoute.cAlert rfl
  exact ⟨h.1, h.2.1, h.2.2.1⟩

/-- C3: the panic handler emits `new_alert` only after a successful alert row
insert: on an insert error it raises 500 `Failed to create alert` and emits no
`new_alert` event; on a successful insert the insert event precedes the
`new_alert` emission in the trace. -/
theorem c3_insert_row_then_notify (o : AlertsRoute.PanicOracle)
    (req : AlertsRoute.PanicRequest) :
    (∀ e, o.insertAlert = .error e →
      (AlertsRoute.panicHandler o req).2 =
        .error ⟨500, "Failed to create alert"⟩ ∧
      ∀ id, AlertsRoute.PanicEvent.emitNewAlert id ∉
        (AlertsRoute.panicHandler o req).1) ∧
    (∀ alert, o.insertAlert = .ok alert →
      AlertsRoute.eventBefore (AlertsRoute.panicHandler o req).1
        .insertAlertRow (.emitNewAlert alert.id)) := by
  constructor
  · intro e he
    rw [panicHandler_insert_err o req e he]
    exact ⟨rfl, fun id => by simp⟩
  · intro alert h
    rw [panicHandler_trace_ok o req alert h]
    exact ⟨⟨2, by simp⟩, ⟨4, by simp⟩, by simp, rfl, rfl⟩

/-- Closed witness for C3 at a concrete failing insert and a concrete
successful insert. -/
theorem c3_insert_row_then_notify_witness :
    ((AlertsRoute.panicHandler AlertsRoute.cOracleInsErr AlertsRoute.cReq).2 =
      .error ⟨500, "Failed to create alert"⟩ ∧
     AlertsRoute.PanicEvent.emitNewAlert "a1" ∉
      (AlertsRoute.panicHandler AlertsRoute.cOracleInsErr AlertsRoute.cReq).1) ∧
    AlertsRoute.eventBefore
      (AlertsRoute.panicHandler AlertsRoute.cOracleOk AlertsRoute.cReq).1
      .insertAlertRow (.emitNewAlert "a1") := by
  refine ⟨?_, ?_⟩
  · have h := (c3_insert_row_then_notify AlertsRoute.cOracleInsErr
      AlertsRoute.cReq).1 () rfl
    exact ⟨h.1, h.2 "a1"⟩
  · exact (c3_insert_row_then_notify AlertsRoute.cOracleOk AlertsRoute.cReq).2
      AlertsRoute.cAlert rfl

/-- C9: whenever the geofence RPC yields an error object or throws,
`checkGeofences` returns the empty list, and both of its callers proceed: the
panic handler (on a successful insert) responds 201 with no geofence
violations, and the location-update handler (on a successful insert) responds
200 with no violations, inserting no automatic violation alert. -/
theorem c9_checkGeofences_total_on_error
    (rpc : ℚ → ℚ → GeofenceService.DbOutcome (List GeofenceService.GeoRow))
    (lat lng : ℚ)
    (h : rpc lat lng = .err ∨ rpc lat lng = .thrown) :
    GeofenceService.checkGeofences rpc lat lng = [] ∧
    (∀ (o : AlertsRoute.PanicOracle) (req : AlertsRoute.PanicRequest)
        (alert : AlertsRoute.AlertRow),
      o.geoRpc = rpc → req.latitude = lat → req.longitude = lng →
      o.insertAlert = .ok alert →
      ∃ resp, (AlertsRoute.panicHandler o req).2 = .ok resp ∧
        resp.geofenceViolations = []) ∧
    (∀ (lo : LocationRoute.LocOracle)
        (req : LocationRoute.LocationUpdateRequest)
        (loc : LocationRoute.LocationRow),
      lo.geoRpc = rpc → req.latitude = lat → req.longitude = lng →
      lo.insertLocation = .ok loc →
      ∃ resp, (LocationRoute.locationUpdateHandler lo req).2 = .ok resp ∧
        resp.geofenceStatus.violations = [] ∧
        LocationRoute.LocEvent.insertViolationAlert ∉
          (LocationRoute.locationUpdateHandler lo req).1) := by
  have hempty : GeofenceService.checkGeofences rpc lat lng = [] := by
    rcases h with h | h <;> simp [GeofenceService.checkGeofences, h]
  refine ⟨hempty, ?_, ?_⟩
  · intro o req alert hg hla hlo hi
    refine ⟨_, panicHandler_resp_ok o req alert hi, ?_⟩
    simp [hg, hla, hlo, hempty]
  · intro lo req loc hg hla hlo hi
    refine ⟨⟨200, loc.id, ⟨[], false, false⟩,
      (match lo.anomaly with
       | .error _ => none
       | .ok a => a).isSome⟩, ?_, rfl, ?_⟩ <;>
      rcases ha : lo.anomaly with e | (_ | a) <;>
      simp [LocationRoute.locationUpdateHandler, hi, hg, hla, hlo, hempty, ha]

/-- Closed witness for C9 at a concrete erroring RPC, with both handlers run
on concrete requests. -/
theorem c9_checkGeofences_total_on_error_witness :
    GeofenceService.checkGeofences (fun _ _ => .err) 28 77 = [] ∧
    (AlertsRoute.panicHandler AlertsRoute.cOracleGeoErr AlertsRoute.cReq).2 =
      .ok ⟨201,
        ⟨"a1", "panic", "critical", "active", 28, 77, some "help", "t0",
          "5 minutes"⟩, []⟩ ∧
    (LocationRoute.locationUpdateHandler LocationRoute.cLocOracleGeoErr
      LocationRoute.cLocReq).2 =
      .ok ⟨200, "l1", ⟨[], false, false⟩, false⟩ := by
  have h := c9_checkGeofences_total_on_error (fun _ _ => .err) 28 77
    (Or.inl rfl)
  have hp := h.2.1 AlertsRoute.cOracleGeoErr AlertsRoute.cReq
    AlertsRoute.cAlert rfl rfl rfl rfl
  refine ⟨h.1, ?_, by decide⟩
  obtain ⟨resp, hr, hv⟩ := hp
  rw [hr]
  congr 1
  rw [show resp = ⟨201,
    ⟨"a1", "panic", "critical", "active", 28, 77, some "help", "t0",
      "5 minutes"⟩, []⟩ from by
    have := panicHandler_resp_ok AlertsRoute.cOracleGeoErr AlertsRoute.cReq
      AlertsRoute.cAlert rfl
    rw [this] at hr
    exact (Except.ok.inj hr).symm]

/-- C7 counterexample: with `MOCK_BLOCKCHAIN` unset and a `POLYGON_RPC_URL`
configured, `anchorToBlockchain` takes the real path: it attempts an on-chain
write and returns a `polygon-mumbai` record, not a mock one — so the claim
that every anchoring request is mocked fails on this configuration. -/
theorem c7_counterexample_real_path :
    BlockchainService.BEvent.chainStoreHash ∈
      (BlockchainService.anchorToBlockchain BlockchainService.c7RealEnv
        BlockchainService.c7Oracle BlockchainService.c7Data).1 ∧
    (BlockchainService.anchorToBlockchain BlockchainService.c7RealEnv
      BlockchainService.c7Oracle BlockchainService.c7Data).2 =
      .ok ⟨"0xh", "polygon-mumbai", some "0xtx", some 5⟩ ∧
    ("polygon-mumbai" : String) ≠ "mock" := by
  exact ⟨by decide, rfl, by decide⟩

/-- C7 (amended): in the mock configuration (`MOCK_BLOCKCHAIN` set to true or
no `POLYGON_RPC_URL` configured), `anchorToBlockchain` performs no on-chain
write: its only effect is a tracking-row insert, and it returns a mock record
whose network is `mock`, whose transaction hash is `mock_tx_`-prefixed, and
whose hash field is the `0x`-prefixed SHA-256 of the serialized event
metadata; and `deployContract` always returns `0x` plus the random bytes as a
mock address, deploying nothing. -/
theorem c7_amended_blockchain_mocked (env : BlockchainService.AnchorEnv)
    (o : BlockchainService.AnchorOracle) (data : BlockchainService.AnchorData)
    (h : env.mockBlockchain = true ∨ env.polygonRpcUrl = none) :
    (BlockchainService.anchorToBlockchain env o data).1 =
      [.dbInsertAnchor "mock"] ∧
    BlockchainService.BEvent.chainStoreHash ∉
      (BlockchainService.anchorToBlockchain env o data).1 ∧
    (BlockchainService.anchorToBlockchain env o data).2 =
      .ok ⟨"0x" ++ o.sha256 (o.stringify
          (BlockchainService.payloadOf o.sha256 env.encryptionKey data)),
        "mock", some ("mock_tx_" ++ Nat.repr o.now), none⟩ ∧
    (∀ r, BlockchainService.deployContract r = "0x" ++ r) := by
  rcases h with hm | hu
  · refine ⟨?_, ?_, ?_, fun r => rfl⟩ <;>
      simp [BlockchainService.anchorToBlockchain, hm]
  · refine ⟨?_, ?_, ?_, fun r => rfl⟩ <;>
      simp [BlockchainService.anchorToBlockchain, hu]

/-- Closed witness for C7 (amended) at a concrete mock environment. -/
theorem c7_amended_blockchain_mocked_witness :
    (BlockchainService.anchorToBlockchain BlockchainService.c7MockEnv
      BlockchainService.c7Oracle BlockchainService.c7Data).1 =
      [.dbInsertAnchor "mock"] ∧
    (BlockchainService.anchorToBlockchain BlockchainService.c7MockEnv
      BlockchainService.c7Oracle BlockchainService.c7Data).2 =
      .ok ⟨"0xh", "mock", some "mock_tx_7", none⟩ ∧
    BlockchainService.deployContract "ab" = "0xab" := by
  have h := c7_amended_blockchain_mocked BlockchainService.c7MockEnv
    BlockchainService.c7Oracle BlockchainService.c7Data (Or.inr rfl)
  exact ⟨h.1, h.2.2.1, h.2.2.2 "ab"⟩

/-- A list is a Boolean prefix of itself followed by anything. -/
theorem isPrefixOf_append_self (l t : List Char) :
    l.isPrefixOf (l ++ t) = true := by
  induction l with
  | nil => simp [List.isPrefixOf]
  | cons a as ih => simp [List.isPrefixOf, ih]

/-- Every character of a Boolean prefix occurs in the larger list. -/
theorem mem_of_isPrefixOf {l s : List Char} (h : l.isPrefixOf s = true)
    {c : Char} (hc : c ∈ l) : c ∈ s := by
  induction l generalizing s with
  | nil => simp at hc
  | cons a as ih =>
    cases s with
    | nil => simp [List.isPrefixOf] at h
    | cons b bs =>
      simp only [List.isPrefixOf, Bool.and_eq_true, beq_iff_eq] at h
      rcases List.mem_cons.mp hc with rfl | hc'
      · exact h.1 ▸ List.mem_cons_self _ _
      · exact List.mem_cons_of_mem _ (ih h.2 hc')

/-- A pattern whose head differs from the head of the list is not a prefix. -/
theorem isPrefixOf_cons_ne {c₀ x : Char} (sep' t : List Char) (h : ¬ c₀ = x) :
    (c₀ :: sep').isPrefixOf (x :: t) = false := by
  simp [List.isPrefixOf, h]

/-- The splitter ignores the exact fuel as long as it covers the length. -/
theorem splitOnFuel_congr (sep : List Char) :
    ∀ (f₁ : Nat) (s : List Char), s.length ≤ f₁ → ∀ f₂, s.length ≤ f₂ →
      Str.splitOnFuel sep f₁ s = Str.splitOnFuel sep f₂ s := by
  intro f₁
  induction f₁ with
  | zero =>
    intro s hs f₂ hs₂
    have hnil : s = [] := List.eq_nil_of_length_eq_zero (Nat.le_zero.mp hs)
    subst hnil
    cases f₂ with
    | zero => rfl
    | succ f =>
      cases sep with
      | nil => simp [Str.splitOnFuel]
      | cons c cs => simp [Str.splitOnFuel, List.isPrefixOf]
  | succ f ih =>
    intro s hs f₂ hs₂
    cases f₂ with
    | zero =>
      have hnil : s = [] := List.eq_nil_of_length_eq_zero (Nat.le_zero.mp hs₂)
      subst hnil
      cases sep with
      | nil => simp [Str.splitOnFuel]
      | cons c cs => simp [Str.splitOnFuel, List.isPrefixOf]
    | succ f₂' =>
      by_cases hsep : sep = []
      · simp [Str.splitOnFuel, hsep]
      · by_cases hpre : sep.isPrefixOf s
        · have hseplen : 0 < sep.length := List.length_pos.mpr hsep
          have hd₁ : (s.drop sep.length).length ≤ f := by
            simp only [List.length_drop]
            omega
          have hd₂ : (s.drop sep.length).length ≤ f₂' := by
            simp only [List.length_drop]
            omega
          simp [Str.splitOnFuel, hsep, hpre, ih (s.drop sep.length) hd₁ f₂' hd₂]
        · cases s with
          | nil => simp [Str.splitOnFuel, hsep, hpre]
          | cons c rest =>
            have h₁ : rest.length ≤ f := by
              simp only [List.length_cons] at hs
              omega
            have h₂ : rest.length ≤ f₂' := by
              simp only [List.length_cons] at hs₂
              omega
            simp [Str.splitOnFuel, hsep, hpre, ih rest h₁ f₂' h₂]

/-- A string containing no character of the separator is not split. -/
theorem splitOnFuel_no_occ (sep : List Char) (c : Char) (hc : c ∈ sep) :
    ∀ (fuel : Nat) (s : List Char), s.length ≤ fuel → c ∉ s →
      Str.splitOnFuel sep fuel s = [s] := by
  intro fuel
  induction fuel with
  | zero =>
    intro s _ _
    rfl
  | succ f ih =>
    intro s hs hns
    have hsep : ¬ sep = [] := by
      intro h
      rw [h] at hc
      simp at hc
    have hpre : ¬ sep.isPrefixOf s := by
      intro hp
      exact hns (mem_of_isPrefixOf hp hc)
    cases s with
    | nil => simp [Str.splitOnFuel, hsep, hpre]
    | cons a rest =>
      have hrest : c ∉ rest := fun h => hns (List.mem_cons_of_mem a h)
      have hlen : rest.length ≤ f := by
        simp only [List.length_cons] at hs
        omega
      simp [Str.splitOnFuel, hsep, hpre, ih rest hlen hrest]

/-- `splitOnL` leaves a separator-free string whole. -/
theorem splitOnL_no_occ (sep s : List Char) (c : Char) (hc : c ∈ sep)
    (hs : c ∉ s) : Str.splitOnL sep s = [s] :=
  splitOnFuel_no_occ sep c hc s.length s le_rfl hs

/-- Splitting around the first separator occurrence: if the head character of
the separator does not occur in `a`, the split of `a ++ sep ++ b` is `a`
followed by the split of `b`. -/
theorem splitOnFuel_sep_mid (c₀ : Char) (sep' : List Char) :
    ∀ (a : List Char) (fuel : Nat) (b : List Char),
      (a ++ (c₀ :: sep') ++ b).length ≤ fuel → c₀ ∉ a →
      Str.splitOnFuel (c₀ :: sep') fuel (a ++ (c₀ :: sep') ++ b) =
        a :: Str.splitOnL (c₀ :: sep') b := by
  intro a
  induction a with
  | nil =>
    intro fuel b hlen ha
    rw [List.nil_append]
    cases fuel with
    | zero =>
      exfalso
      simp [List.length_append] at hlen
    | succ f =>
      have hpre : (c₀ :: sep').isPrefixOf ((c₀ :: sep') ++ b) = true :=
        isPrefixOf_append_self _ _
      have hdrop : ((c₀ :: sep') ++ b).drop (c₀ :: sep').length = b :=
        List.drop_left _ _
      have hblen : b.length ≤ f := by
        simp only [List.nil_append, List.length_append, List.length_cons]
          at hlen
        omega
      have hstep : Str.splitOnFuel (c₀ :: sep') (f + 1) ((c₀ :: sep') ++ b) =
          [] :: Str.splitOnFuel (c₀ :: sep') f b := by
        simp [Str.splitOnFuel, hpre, hdrop]
      rw [hstep, Str.splitOnL]
      exact congrArg (fun l => [] :: l)
        (splitOnFuel_congr _ f b hblen b.length le_rfl)
  | cons x a' ih =>
    intro fuel b hlen ha
    cases fuel with
    | zero =>
      exfalso
      simp [List.length_append] at hlen
    | succ f =>
      have hx : ¬ c₀ = x := fun h => ha (h ▸ List.mem_cons_self x a')
      have ha' : c₀ ∉ a' := fun h => ha (List.mem_cons_of_mem x h)
      have hpre : (c₀ :: sep').isPrefixOf (x :: ((a' ++ (c₀ :: sep')) ++ b)) =
          false := isPrefixOf_cons_ne sep' _ hx
      have hlen' : (a' ++ (c₀ :: sep') ++ b).length ≤ f := by
        simp only [List.cons_append, List.length_cons] at hlen
        omega
      have hrec := ih f b hlen' ha'
      have hstep : Str.splitOnFuel (c₀ :: sep') (f + 1)
          ((x :: a') ++ (c₀ :: sep') ++ b) =
          match Str.splitOnFuel (c₀ :: sep') f (a' ++ (c₀ :: sep') ++ b) with
          | [] => [[x]]
          | y :: ys => (x :: y) :: ys := by
        simp only [List.cons_append, Str.splitOnFuel, hpre,
          Bool.false_eq_true, if_false, if_neg (List.cons_ne_nil c₀ sep')]
      rw [hstep, hrec]

/-- `splitOnL` around the first separator occurrence. -/
theorem splitOnL_sep_mid (c₀ : Char) (sep' a b : List Char) (ha : c₀ ∉ a) :
    Str.splitOnL (c₀ :: sep') (a ++ (c₀ :: sep') ++ b) =
      a :: Str.splitOnL (c₀ :: sep') b :=
  splitOnFuel_sep_mid c₀ sep' a (a ++ (c₀ :: sep') ++ b).length b le_rfl ha

/-- Unfolding `joinSepL` on a two-or-more element list. -/
theorem joinSepL_cons_cons (sep x y : List Char) (l : List (List Char)) :
    Str.joinSepL sep (x :: y :: l) = x ++ sep ++ Str.joinSepL sep (y :: l) := by
  rfl

/-- Appending one element to a non-empty join adds one separator. -/
theorem joinSepL_concat (sep : List Char) (l : List (List Char))
    (x : List Char) (h : l ≠ []) :
    Str.joinSepL sep (l ++ [x]) = Str.joinSepL sep l ++ sep ++ x := by
  induction l with
  | nil => exact absurd rfl h
  | cons y l' ih =>
    cases l' with
    | nil => simp [Str.joinSepL]
    | cons z l'' =>
      have := ih (List.cons_ne_nil z l'')
      simp only [List.cons_append, joinSepL_cons_cons]
      rw [show (z :: l'') ++ [x] = z :: (l'' ++ [x]) from rfl] at this
      rw [this]
      simp [List.append_assoc]

/-- Every character of a join comes from the separator or from some part. -/
theorem mem_joinSepL (sep : List Char) (parts : List (List Char)) (c : Char)
    (h : c ∈ Str.joinSepL sep parts) : c ∈ sep ∨ ∃ p ∈ parts, c ∈ p := by
  induction parts with
  | nil => simp [Str.joinSepL] at h
  | cons p ps ih =>
    cases ps with
    | nil =>
      right
      exact ⟨p, List.mem_cons_self _ _, h⟩
    | cons q ps' =>
      rw [joinSepL_cons_cons] at h
      rcases List.mem_append.mp h with h₁ | h₂
      · rcases List.mem_append.mp h₁ with hp | hs
        · exact Or.inr ⟨p, List.mem_cons_self _ _, hp⟩
        · exact Or.inl hs
      · rcases ih h₂ with hs | ⟨r, hr, hcr⟩
        · exact Or.inl hs
        · exact Or.inr ⟨r, List.mem_cons_of_mem _ hr, hcr⟩

/-- Splitting a join recovers the parts when no part contains the head
character of the separator. -/
theorem splitOnL_joinSepL (c₀ : Char) (sep' : List Char) :
    ∀ (parts : List (List Char)), parts ≠ [] →
      (∀ p ∈ parts, c₀ ∉ p) →
      Str.splitOnL (c₀ :: sep') (Str.joinSepL (c₀ :: sep') parts) = parts := by
  intro parts
  induction parts with
  | nil => intro h; exact absurd rfl h
  | cons p ps ih =>
    intro _ hall
    cases ps with
    | nil =>
      exact splitOnL_no_occ _ _ c₀ (List.mem_cons_self _ _)
        (hall p (List.mem_cons_self _ _))
    | cons q ps' =>
      rw [joinSepL_cons_cons,
        splitOnL_sep_mid c₀ sep' p _ (hall p (List.mem_cons_self _ _)),
        ih (List.cons_ne_nil q ps')
          (fun r hr => hall r (List.mem_cons_of_mem _ hr))]

/-- Removing the first occurrence when the pattern sits at the front and does
not occur later (`c` is a pattern character absent from the rest). -/
theorem replaceFirstL_pat_front (pat rest : List Char) (c : Char)
    (hc : c ∈ pat) (h : c ∉ rest) :
    Str.replaceFirstL (pat ++ rest) pat = rest := by
  rcases pat with _ | ⟨c₀, sep'⟩
  · simp at hc
  · have h₁ : Str.splitOnL (c₀ :: sep') ((c₀ :: sep') ++ rest) =
        [] :: Str.splitOnL (c₀ :: sep') rest := by
      have := splitOnL_sep_mid c₀ sep' [] rest (by simp)
      simpa using this
    have h₂ : Str.splitOnL (c₀ :: sep') rest = [rest] :=
      splitOnL_no_occ _ _ c hc h
    rw [Str.replaceFirstL, h₁, h₂]
    rfl

/-- Removing the first occurrence when the pattern sits at the end and its
head character does not occur before it. -/
theorem replaceFirstL_pat_back (c₀ : Char) (sep' a : List Char)
    (ha : c₀ ∉ a) :
    Str.replaceFirstL (a ++ (c₀ :: sep')) (c₀ :: sep') = a := by
  have h₁ : Str.splitOnL (c₀ :: sep') (a ++ (c₀ :: sep') ++ []) =
      a :: Str.splitOnL (c₀ :: sep') [] :=
    splitOnL_sep_mid c₀ sep' a [] ha
  rw [List.append_nil] at h₁
  have h₂ : Str.splitOnL (c₀ :: sep') [] = [[]] := rfl
  rw [Str.replaceFirstL, h₁, h₂]
  simp [Str.joinSepL]

/-- `trimL` is the identity on a string whose first and last characters are
not whitespace. -/
theorem trimL_eq_self (s : List Char)
    (hhead : ∀ c, s.head? = some c → ¬ c.isWhitespace)
    (hlast : ∀ c, s.getLast? = some c → ¬ c.isWhitespace) :
    Str.trimL s = s := by
  unfold Str.trimL
  have h₁ : s.dropWhile Char.isWhitespace = s := by
    cases s with
    | nil => rfl
    | cons a t =>
      have := hhead a rfl
      simp [List.dropWhile_cons, this]
  rw [h₁]
  have h₂ : s.reverse.dropWhile Char.isWhitespace = s.reverse := by
    cases hr : s.reverse with
    | nil => rfl
    | cons a t =>
      have ha : s.getLast? = some a := by
        rw [← List.head?_reverse, hr]
        rfl
      have := hlast a ha
      simp [List.dropWhile_cons, this]
  rw [h₂, List.reverse_reverse]

/-- The space character is whitespace. -/
theorem space_isWhitespace : (' ').isWhitespace = true := by decide

/-- A well-behaved token contains no space, comma or parentheses. -/
theorem goodTok_not_mem (t : List Char) (h : Str.goodTok t) :
    (' ') ∉ t ∧ (',') ∉ t ∧ ('(') ∉ t ∧ (')') ∉ t := by
  refine ⟨fun hm => ?_, fun hm => ?_, fun hm => ?_, fun hm => ?_⟩
  · exact (h.2 _ hm).1 space_isWhitespace
  · exact (h.2 _ hm).2 (by simp)
  · exact (h.2 _ hm).2 (by simp)
  · exact (h.2 _ hm).2 (by simp)

/-- Parsing one `lng lat` token: trimming is the identity, the space split
recovers the two printed numbers, and the parser returns the `[lat, lng]`
pair. -/
theorem parse_token {α : Type} (num : List Char → α) (nan : α)
    (u v : List Char) (hu : Str.goodTok u) (hv : Str.goodTok v) :
    ((Str.splitOnL [' '] (Str.trimL (u ++ [' '] ++ v))).map num).getD 1 nan =
      num v ∧
    ((Str.splitOnL [' '] (Str.trimL (u ++ [' '] ++ v))).map num).getD 0 nan =
      num u := by
  have htrim : Str.trimL (u ++ [' '] ++ v) = u ++ [' '] ++ v := by
    apply trimL_eq_self
    · intro c hc
      rcases u with _ | ⟨d, ds⟩
      · exact absurd rfl hu.1
      · simp only [List.cons_append, List.head?_cons, Option.some.injEq] at hc
        subst hc
        exact (hu.2 d (List.mem_cons_self _ _)).1
    · intro c hc
      rw [List.getLast?_append_of_ne_nil _ hv.1] at hc
      rcases List.eq_nil_or_concat v with rfl | ⟨v', z, rfl⟩
      · exact absurd rfl hv.1
      · rw [List.concat_eq_append, List.getLast?_concat] at hc
        have hcz : z = c := Option.some.inj hc
        subst hcz
        rw [List.concat_eq_append] at hv
        exact (hv.2 z
          (List.mem_append.mpr (Or.inr (List.mem_cons_self _ _)))).1
  rw [htrim]
  have hsplit : Str.splitOnL [' '] (u ++ [' '] ++ v) = [u, v] := by
    have h₁ := splitOnL_sep_mid (' ') [] u v (goodTok_not_mem u hu).1
    have h₂ := splitOnL_no_occ [' '] v (' ') (List.mem_cons_self _ _)
      (goodTok_not_mem v hv).1
    rw [h₁, h₂]
  rw [hsplit]
  exact ⟨rfl, rfl⟩

/-- C8: round-trip of the geofence polygon encoding. For every non-empty list
of `[lat, lng]` pairs whose printed numbers are well behaved (non-empty, free
of whitespace, commas and parentheses) and whose string-to-number conversion
is exact, parsing the WKT string built by `createGeofence` returns exactly the
original list of pairs. -/
theorem c8_wkt_roundtrip {α : Type} (numToStr : α → List Char)
    (num : List Char → α) (nan : α) (coords : List (α × α))
    (hne : coords ≠ [])
    (hgood : ∀ p ∈ coords,
      Str.goodTok (numToStr p.1) ∧ Str.goodTok (numToStr p.2))
    (hround : ∀ p ∈ coords,
      num (numToStr p.1) = p.1 ∧ num (numToStr p.2) = p.2) :
    ∀ w, GeofenceService.createGeofencePolygonWKT numToStr coords = some w →
      GeofenceService.parsePolygonCoordinates num nan w = coords := by
  rcases coords with _ | ⟨c0, rest⟩
  · exact absurd rfl hne
  intro w hw
  simp only [GeofenceService.createGeofencePolygonWKT] at hw
  have hw' := (Option.some.inj hw).symm
  subst hw'
  -- characters of a printed token
  have hTokChar : ∀ p ∈ c0 :: rest,
      ∀ c ∈ numToStr p.2 ++ [' '] ++ numToStr p.1,
      c = ' ' ∨ (¬ c.isWhitespace = true ∧ c ∉ [',', '(', ')']) := by
    intro p hp c hc
    rcases List.mem_append.mp hc with h | h
    · rcases List.mem_append.mp h with h' | h'
      · exact Or.inr ((hgood p hp).2.2 c h')
      · simp only [List.mem_singleton] at h'
        exact Or.inl h'
    · exact Or.inr ((hgood p hp).1.2 c h)
  -- characters of the joined token list
  have hJoin : ∀ c, c ∈ Str.joinSepL (',' :: [' '])
      (((c0 :: rest).map (fun p => numToStr p.2 ++ [' '] ++ numToStr p.1)) ++
        [numToStr c0.2 ++ [' '] ++ numToStr c0.1]) →
      c = ',' ∨ c = ' ' ∨ (¬ c.isWhitespace = true ∧ c ∉ [',', '(', ')']) := by
    intro c hc
    rcases mem_joinSepL _ _ c hc with hs | ⟨p', hp', hcp⟩
    · rcases List.mem_cons.mp hs with h | h
      · exact Or.inl h
      · simp only [List.mem_singleton] at h
        exact Or.inr (Or.inl h)
    · have hex : ∃ p ∈ c0 :: rest,
          p' = numToStr p.2 ++ [' '] ++ numToStr p.1 := by
        rcases List.mem_append.mp hp' with h | h
        · rcases List.mem_map.mp h with ⟨p, hp, hpe⟩
          exact ⟨p, hp, hpe.symm⟩
        · simp only [List.mem_singleton] at h
          exact ⟨c0, List.mem_cons_self _ _, h⟩
      obtain ⟨p, hp, rfl⟩ := hex
      rcases hTokChar p hp c hcp with h | h
      · exact Or.inr (Or.inl h)
      · exact Or.inr (Or.inr h)
  -- the body of the WKT string, as a join over all tokens
  have hcat : Str.joinSepL (',' :: [' '])
      (((c0 :: rest).map (fun p => numToStr p.2 ++ [' '] ++ numToStr p.1)) ++
        [numToStr c0.2 ++ [' '] ++ numToStr c0.1]) =
      Str.joinSepL (',' :: [' '])
        ((c0 :: rest).map (fun p => numToStr p.2 ++ [' '] ++ numToStr p.1)) ++
        (',' :: [' ']) ++ (numToStr c0.2 ++ [' '] ++ numToStr c0.1) :=
    joinSepL_concat _ _ _ (by simp)
  have hw2 : "POLYGON((".data
      ++ Str.joinSepL ", ".data
          ((c0 :: rest).map (fun p => numToStr p.2 ++ [' '] ++ numToStr p.1))
      ++ ", ".data ++ numToStr c0.2 ++ [' '] ++ numToStr c0.1
      ++ "))".data =
      "POLYGON((".data ++
        (Str.joinSepL (',' :: [' '])
          (((c0 :: rest).map
            (fun p => numToStr p.2 ++ [' '] ++ numToStr p.1)) ++
            [numToStr c0.2 ++ [' '] ++ numToStr c0.1]) ++ (')' :: [')'])) := by
    rw [hcat]
    have hsep : ", ".data = ',' :: [' '] := rfl
    have hrp : "))".data = ')' :: [')'] := rfl
    rw [hsep, hrp]
    simp [List.append_assoc]
  rw [hw2]
  -- no parenthesis occurs in the joined body
  have hNoL : '(' ∉ Str.joinSepL (',' :: [' '])
      (((c0 :: rest).map (fun p => numToStr p.2 ++ [' '] ++ numToStr p.1)) ++
        [numToStr c0.2 ++ [' '] ++ numToStr c0.1]) := by
    intro hm
    rcases hJoin _ hm with h | h | h
    · exact absurd h (by decide)
    · exact absurd h (by decide)
    · exact h.2 (by simp)
  have hNoR : ')' ∉ Str.joinSepL (',' :: [' '])
      (((c0 :: rest).map (fun p => numToStr p.2 ++ [' '] ++ numToStr p.1)) ++
        [numToStr c0.2 ++ [' '] ++ numToStr c0.1]) := by
    intro hm
    rcases hJoin _ hm with h | h | h
    · exact absurd h (by decide)
    · exact absurd h (by decide)
    · exact h.2 (by simp)
  -- strip the two delimiters and split on the separator
  simp only [GeofenceService.parsePolygonCoordinates]
  have hstep1 : Str.replaceFirstL
      ("POLYGON((".data ++
        (Str.joinSepL (',' :: [' '])
          (((c0 :: rest).map
            (fun p => numToStr p.2 ++ [' '] ++ numToStr p.1)) ++
            [numToStr c0.2 ++ [' '] ++ numToStr c0.1]) ++ (')' :: [')'])))
      "POLYGON((".data =
      Str.joinSepL (',' :: [' '])
        (((c0 :: rest).map
          (fun p => numToStr p.2 ++ [' '] ++ numToStr p.1)) ++
          [numToStr c0.2 ++ [' '] ++ numToStr c0.1]) ++ (')' :: [')']) := by
    apply replaceFirstL_pat_front _ _ '('
    · decide
    · intro hm
      rcases List.mem_append.mp hm with h | h
      · exact hNoL h
      · exact absurd h (by decide)
  rw [hstep1]
  have hstep2 := replaceFirstL_pat_back ')' [')'] _ hNoR
  rw [hstep2]
  have hTokComma : ∀ t ∈ (((c0 :: rest).map
      (fun p => numToStr p.2 ++ [' '] ++ numToStr p.1)) ++
      [numToStr c0.2 ++ [' '] ++ numToStr c0.1]), ',' ∉ t := by
    intro t ht hc
    have hex : ∃ p ∈ c0 :: rest,
        t = numToStr p.2 ++ [' '] ++ numToStr p.1 := by
      rcases List.mem_append.mp ht with h | h
      · rcases List.mem_map.mp h with ⟨p, hp, hpe⟩
        exact ⟨p, hp, hpe.symm⟩
      · simp only [List.mem_singleton] at h
        exact ⟨c0, List.mem_cons_self _ _, h⟩
    obtain ⟨p, hp, rfl⟩ := hex
    rcases hTokChar p hp ',' hc with h | h
    · exact absurd h (by decide)
    · exact h.2 (by simp)
  rw [splitOnL_joinSepL ',' [' '] _ (by simp) hTokComma]
  -- parse each token back to its pair
  have hmap : ∀ p ∈ c0 :: rest,
      ((Str.splitOnL [' ']
        (Str.trimL (numToStr p.2 ++ [' '] ++ numToStr p.1))).map num).getD 1
          nan = p.1 ∧
      ((Str.splitOnL [' ']
        (Str.trimL (numToStr p.2 ++ [' '] ++ numToStr p.1))).map num).getD 0
          nan = p.2 := by
    intro p hp
    have h₁ := parse_token num nan (numToStr p.2) (numToStr p.1)
      (hgood p hp).2 (hgood p hp).1
    exact ⟨h₁.1.trans (hround p hp).1, h₁.2.trans (hround p hp).2⟩
  rw [List.map_append, List.map_map]
  have hself : (c0 :: rest).map
      ((fun coord => (((Str.splitOnL [' '] (Str.trimL coord)).map num).getD 1
          nan,
        ((Str.splitOnL [' '] (Str.trimL coord)).map num).getD 0 nan)) ∘
        (fun p => numToStr p.2 ++ [' '] ++ numToStr p.1)) = c0 :: rest := by
    rw [List.map_congr_left (g := id) ?_, List.map_id]
    intro p hp
    simp only [Function.comp_apply, id_eq]
    exact Prod.ext (hmap p hp).1 (hmap p hp).2
  rw [hself]
  have hlastTok : [numToStr c0.2 ++ [' '] ++ numToStr c0.1].map
      (fun coord => (((Str.splitOnL [' '] (Str.trimL coord)).map num).getD 1
          nan,
        ((Str.splitOnL [' '] (Str.trimL coord)).map num).getD 0 nan)) =
      [c0] := by
    simp only [List.map_cons, List.map_nil]
    have h := hmap c0 (List.mem_cons_self _ _)
    rw [List.cons.injEq]
    exact ⟨Prod.ext h.1 h.2, rfl⟩
  rw [hlastTok, List.dropLast_concat]

/-- Closed witness for C8 at concrete natural-number coordinates with decimal
printing and parsing. -/
theorem c8_wkt_roundtrip_witness :
    GeofenceService.createGeofencePolygonWKT (fun n : Nat => (Nat.repr n).data)
      [(1, 2), (3, 4)] = some "POLYGON((2 1, 4 3, 2 1))".data ∧
    GeofenceService.parsePolygonCoordinates Str.digitsToNat 0
      "POLYGON((2 1, 4 3, 2 1))".data = [(1, 2), (3, 4)] := by
  refine ⟨by decide, ?_⟩
  exact c8_wkt_roundtrip (fun n => (Nat.repr n).data) Str.digitsToNat 0
    [(1, 2), (3, 4)] (by decide) (by decide) (by decide) _ (by decide)

/-- C4 counterexample: polygon coordinate parsing is performed in the
application code, not delegated to the database: the geofence service's own
`parsePolygonCoordinates` maps WKT geometry strings to coordinate pairs, and
its output depends on the geometry string. -/
theorem c4_counterexample_app_parses_polygons :
    GeofenceService.parsePolygonCoordinates Str.jsNumZ 0
      "POLYGON((1 2, 3 4, 1 2))".data = [(2, 1), (4, 3)] ∧
    GeofenceService.parsePolygonCoordinates Str.jsNumZ 0
      "POLYGON((5 6, 7 8, 5 6))".data = [(6, 5), (8, 7)] ∧
    GeofenceService.parsePolygonCoordinates Str.jsNumZ 0
      "POLYGON((1 2, 3 4, 1 2))".data ≠
      GeofenceService.parsePolygonCoordinates Str.jsNumZ 0
      "POLYGON((5 6, 7 8, 5 6))".data := by
  decide

/-- C4 (amended): `checkGeofences` is a pass-through over the database
function `check_point_in_geofences` — it forwards the point and maps the rows
field by field (`geofence_id` to `id`, plus `name`, `type`, `description`) —
but polygon coordinate parsing is performed in the application code:
`getActiveGeofences` parses the stored WKT geometry with the in-app
`parsePolygonCoordinates`. -/
theorem c4_amended_pass_through_with_app_parsing :
    (∀ (rpc : ℚ → ℚ → GeofenceService.DbOutcome (List GeofenceService.GeoRow))
        (lat lng : ℚ) (rows : List GeofenceService.GeoRow),
      rpc lat lng = .ok (some rows) →
      GeofenceService.checkGeofences rpc lat lng =
        rows.map (fun v => ⟨v.geofence_id, v.name, v.type, v.description⟩)) ∧
    GeofenceService.getActiveGeofences Str.jsNumZ 0
      (.ok (some [⟨"g1", "Zone", "restricted", none,
        "POLYGON((1 2, 3 4, 1 2))".data, "t0"⟩])) =
      [⟨"g1", "Zone", "restricted", none, [(2, 1), (4, 3)], "t0"⟩] := by
  constructor
  · intro rpc lat lng rows h
    simp [GeofenceService.checkGeofences, h]
  · decide

/-- Closed witness for C4 (amended) at a concrete database row. -/
theorem c4_amended_pass_through_witness :
    GeofenceService.checkGeofences
      (fun _ _ => .ok (some [⟨"g1", "Zone", "restricted", none⟩])) 28 77 =
      [⟨"g1", "Zone", "restricted", none⟩] := by
  have h := c4_amended_pass_through_with_app_parsing.1
    (fun _ _ => .ok (some [⟨"g1", "Zone", "restricted", none⟩])) 28 77
    [⟨"g1", "Zone", "restricted", none⟩] rfl
  simpa using h
